import Mathlib

/-!
Verification model of the reader interaction layer in
src/static/js/reader.js (e-book reader with collaborative journal layers).

The script is event-driven DOM code.  We embed it shallowly:

* the mutable closure variables and the DOM pieces the script reads or
  writes become the fields of ReaderState;
* each event handler becomes a pure function from the pre-state (plus the
  outcome of any awaited network call, which is external input) to the
  post-state together with the ordered list of observable steps it performs
  (network requests, alert and confirm dialogs, state writes);
* JavaScript string and number primitives used by the script
  (template-literal number printing, parseInt, String.split, trim,
  truthiness) are modelled explicitly below.

Style-only DOM statements (colours, fonts, scroll positions, css animation)
are not modelled except where noted.
-/

/-! ### JavaScript primitives -/

/-- Decimal digit characters, as produced by JavaScript number printing.
The catch-all branch is never reached for digits below ten. -/
def digitChar : Nat → Char
  | 0 => '0' | 1 => '1' | 2 => '2' | 3 => '3' | 4 => '4'
  | 5 => '5' | 6 => '6' | 7 => '7' | 8 => '8' | 9 => '9'
  | _ => '*'

/-- Character test used by the model of parseInt. -/
def isDigitChar (c : Char) : Bool := decide ('0' ≤ c ∧ c ≤ '9')

/-- Numeric value of a digit character. -/
def charDigitVal (c : Char) : Nat := c.toNat - 48

/-- Decimal digits of a positive number, most significant first, by
repeated division by ten.  The first argument is fuel consumed once per
step (any fuel at least the number itself is enough), which keeps the
definition structurally recursive and hence kernel-computable. -/
def decDigitsAux : Nat → Nat → List Nat
  | _, 0 => []
  | 0, _ + 1 => []
  | fuel + 1, n + 1 => decDigitsAux fuel ((n + 1) / 10) ++ [(n + 1) % 10]

/-- Decimal digits, most significant first; empty for zero. -/
def decDigits (n : Nat) : List Nat := decDigitsAux n n

/-- The character list of the decimal representation of a natural number:
most significant digit first, "0" for zero.  This is what a JavaScript
template literal or DOM assignment prints for a nonnegative integer. -/
def jsNatChars (n : Nat) : List Char :=
  if n = 0 then ['0'] else (decDigits n).map digitChar

/-- JavaScript string coercion of a nonnegative integer. -/
def jsNatToString (n : Nat) : String := String.mk (jsNatChars n)

/-- Model of JavaScript parseInt on a character list: read the leading run
of decimal digits; none models NaN.  (The sign / whitespace / radix-prefix
handling of parseInt is omitted: every call site in the script parses
strings that start with a digit or are entirely non-numeric.) -/
def jsParseInt (cs : List Char) : Option Nat :=
  let ds := cs.takeWhile isDigitChar
  if ds.isEmpty then none
  else some (ds.foldl (fun a c => a * 10 + charDigitVal c) 0)

/-- parseInt on a string. -/
def jsParseIntStr (s : String) : Option Nat := jsParseInt s.data

/-- Model of JavaScript String.prototype.trim: drop whitespace from both
ends.  (JavaScript also strips some Unicode space characters beyond the
ASCII whitespace this models; none appears in the claims.) -/
def jsTrim (s : String) : String :=
  String.mk (((s.data.dropWhile Char.isWhitespace).reverse.dropWhile Char.isWhitespace).reverse)

/-- Model of JavaScript String.prototype.split with separator "-". -/
def splitDash : List Char → List (List Char)
  | [] => [[]]
  | c :: cs =>
      if c = '-' then [] :: splitDash cs
      else
        match splitDash cs with
        | [] => [[c]]
        | p :: ps => (c :: p) :: ps

/-! ### Data model

Remote entities as the script consumes them from the JSON API, and the
client-side state.  A JavaScript value that may be either a string (a select
option value) or a number (an id out of a JSON response) is modelled by
JsVal, with its truthiness and its string coercion. -/

/-- A string-or-number JavaScript value, as passed around for layer ids. -/
inductive JsVal where
  | str (s : String)
  | num (n : Nat)
deriving DecidableEq

/-- JavaScript truthiness of a JsVal: the empty string and zero are falsy. -/
def JsVal.truthy : JsVal → Bool
  | .str s => decide (s ≠ "")
  | .num n => decide (n ≠ 0)

/-- JavaScript string coercion of a JsVal (template literals, DOM writes). -/
def JsVal.toStr : JsVal → String
  | .str s => s
  | .num n => jsNatToString n

/-- Truthiness of a nullable JavaScript string value. -/
def jsTruthyOptStr : Option String → Bool
  | none => false
  | some s => decide (s ≠ "")

/-- Truthiness of the nullable currentLayerId variable. -/
def jsTruthyOpt : Option JsVal → Bool
  | none => false
  | some v => v.truthy

/-- A record of the annotations endpoint: one element of the array returned
by GET /api/layer/\x7blayer_id\x7d/annotations. -/
structure AnnotationData where
  id : Nat
  content : String
  author_id : Nat
  author_name : String
  highlighted_text : Option String
  position_data : Option String
deriving DecidableEq

/-- One element of the array returned by GET /api/book/\x7bebook_id\x7d/layers,
and also the object returned by POST /api/layer/new. -/
structure LayerInfo where
  id : Nat
  name : String
  creator_name : String
deriving DecidableEq

/-- One element of the array returned by GET /api/user/groups. -/
structure StudyGroup where
  id : Nat
  name : String
deriving DecidableEq

/-- An option element of a select control: its value attribute, its text,
and whether it carries the disabled attribute. -/
structure SelectOption where
  value : String
  label : String
  isDisabled : Bool
deriving DecidableEq

/-- The page-number label rendered inside a card's blockquote, when the
annotation has position data. -/
structure CardQuote where
  text : String
  locationLabel : Option String
deriving DecidableEq

/-- One annotation card as built by renderAnnotations: class name, the
data-id attribute (the source never sets one), author line, whether the
delete button was attached, the content text, and the optional quote. -/
structure AnnotationCard where
  className : String
  dataId : Option Nat
  authorName : String
  hasDeleteBtn : Bool
  contentText : String
  quote : Option CardQuote
deriving DecidableEq

/-- The contents of the annotation-list pane: either a placeholder message
paragraph or a list of rendered cards. -/
inductive PanelView where
  | message (text : String)
  | cards (cs : List AnnotationCard)
deriving DecidableEq

/-- The mutable client state: the closure variables of reader.js together
with the DOM pieces the script reads or writes.  totalPages is fixed at
document load and passed separately where needed. -/
structure ReaderState where
  currentPageNum : Nat
  currentLayerId : Option JsVal
  currentHighlightedText : String
  pageNumDisplayText : String
  annotationTextareaValue : String
  annotationListView : PanelView
  askAiBtnText : String
  askAiBtnDisabled : Bool
  newLayerNameValue : String
  layerGroupOptions : List SelectOption
  layerGroupValue : String
  createLayerModalDisplay : String
  layerSelectOptions : List SelectOption
  layerSelectValue : String
deriving DecidableEq

/-- The observable steps a handler performs, in program order: network
requests (with their payloads), dialogs, and the write to currentLayerId
(recorded as a step so that its position relative to the network request is
part of the trace). -/
inductive Step where
  | getLayersReq
  | getAnnotationsReq (layerId : JsVal)
  | createAnnotationReq (content : String) (layerId : JsVal)
      (highlightedText : String) (positionData : String)
  | deleteAnnotationReq (id : Nat)
  | getGroupsReq
  | createLayerReq (name : String) (ebookId : Nat) (studyGroupId : Option Nat)
  | aiExplainReq (text : String) (ebookId : Nat)
  | alertStep (msg : String)
  | confirmStep (msg : String)
  | writeCurrentLayerId (v : JsVal)
  | scrollStep
deriving DecidableEq

/-- Whether a step is a network request. -/
def isNetworkReq : Step → Bool
  | .getLayersReq => true
  | .getAnnotationsReq _ => true
  | .createAnnotationReq _ _ _ _ => true
  | .deleteAnnotationReq _ => true
  | .getGroupsReq => true
  | .createLayerReq _ _ _ => true
  | .aiExplainReq _ _ => true
  | _ => false

/-- Outcome of an awaited fetch whose body the script parses as JSON:
the fetch may reject, or resolve with an ok flag and a body that either
parses to a value of type a or fails to parse (none). -/
inductive FetchOutcome (a : Type) where
  | rejected
  | resolved (ok : Bool) (body : Option a)
deriving DecidableEq

/-- Outcome of an awaited fetch whose body the script never reads. -/
inductive PostOutcome where
  | rejected
  | resolved (ok : Bool)
deriving DecidableEq

/-! ### Scroll observer (current page tracking) -/

/-- The visibility threshold the IntersectionObserver is created with. -/
def pageObserverThreshold : ℚ := 1 / 2

/-- One observer entry: the id of the observed page wrapper element and
whether it is now intersecting (at least half visible). -/
structure ObsEntry where
  targetId : String
  isIntersecting : Bool
deriving DecidableEq

/-- The page-number extraction in the observer callback: split the element
id on dashes, take the part at index 2 (an out-of-range index yields
JavaScript undefined, whose parseInt is NaN) and parse it. -/
def pageIdToNum (pageId : String) : Option Nat :=
  match (splitDash pageId.data).get? 2 with
  | none => none
  | some part => jsParseInt part

/-- The body of the forEach in the pageObserver callback for one entry:
when the entry is intersecting, parse the page number out of the element id
"page-wrapper-N" and, when the result is truthy (not NaN, not zero), write
it to currentPageNum and to the page-number display. -/
def pageObserverCallbackStep (st : ReaderState) (entry : ObsEntry) : ReaderState :=
  if entry.isIntersecting then
    match pageIdToNum entry.targetId with
    | some pageNum =>
        if pageNum ≠ 0 then
          { st with currentPageNum := pageNum, pageNumDisplayText := jsNatToString pageNum }
        else st
    | none => st
  else st

/-- The pageObserver callback: fold over the batch of entries in order. -/
def pageObserverCallback (st : ReaderState) (entries : List ObsEntry) : ReaderState :=
  entries.foldl pageObserverCallbackStep st

/-- The element id renderAllPages gives the wrapper of page n. -/
def pageWrapperId (n : Nat) : String := "page-wrapper-" ++ jsNatToString n

/-- The ids of the elements the observer observes after renderAllPages:
the wrappers of pages 1 .. totalPages. -/
def observedPageIds (totalPages : Nat) : List String :=
  (List.range totalPages).map (fun i => pageWrapperId (i + 1))

/-! ### Selection capture -/

/-- The mouseup handler installed by setupTextSelection on the viewer area:
trim the active selection; a non-empty result overwrites
currentHighlightedText, an empty one changes nothing. -/
def viewerMouseupHandler (st : ReaderState) (selectionText : String) : ReaderState :=
  let selectedText := jsTrim selectionText
  if selectedText.length > 0 then { st with currentHighlightedText := selectedText }
  else st

/-! ### Annotation panel -/

/-- One card as built by renderAnnotations for one annotation object.
Styling is omitted; note that no data-id attribute is ever set on the card,
and that the delete button is attached only when the author id equals the
current user id.  The quote block is rendered only when highlighted_text is
truthy, and its location label only when position_data is truthy. -/
def renderAnnotationCard (userId : Nat) (a : AnnotationData) : AnnotationCard :=
  { className := "annotation-card"
  , dataId := none
  , authorName := a.author_name
  , hasDeleteBtn := a.author_id == userId
  , contentText := a.content
  , quote :=
      if jsTruthyOptStr a.highlighted_text then
        some { text := a.highlighted_text.getD ""
             , locationLabel :=
                 if jsTruthyOptStr a.position_data then
                   some ("(Location: " ++ a.position_data.getD "" ++ ")")
                 else none }
      else none }

/-- renderAnnotations: clear the list; an empty array renders a placeholder
message, otherwise one card per annotation in the given order. -/
def renderAnnotations (userId : Nat) (anns : List AnnotationData) : PanelView :=
  if anns.length = 0 then
    .message "No notes yet. Start writing below!"
  else
    .cards (anns.map (renderAnnotationCard userId))

/-- fetchAnnotations: a falsy layer id renders a prompt and makes no
request; otherwise currentLayerId is assigned (recorded as a trace step),
the loading placeholder is shown, and the GET is issued.  The response
status is never checked: the body is parsed directly, and a parsed body is
rendered; a rejected fetch or a parse failure is only logged. -/
def fetchAnnotations (userId : Nat) (st : ReaderState) (layerId : JsVal)
    (outcome : FetchOutcome (List AnnotationData)) : ReaderState × List Step :=
  if ¬ layerId.truthy then
    ({ st with annotationListView := .message "Select a journal layer above." }, [])
  else
    let st1 := { st with currentLayerId := some layerId
                       , annotationListView := .message "Loading..." }
    let pre : List Step := [.writeCurrentLayerId layerId, .getAnnotationsReq layerId]
    match outcome with
    | .resolved _ (some anns) =>
        ({ st1 with annotationListView := renderAnnotations userId anns }, pre)
    | _ => (st1, pre)

/-- fetchLayers: issue the GET; the status is never checked.  A parsed body
rebuilds the layer select (placeholder option, a disabled "No journals yet"
entry when the array is empty, then one option per layer valued by its id
and labelled "name (by creator)"); rebuilding selects the placeholder.  A
rejected fetch or parse failure is only logged. -/
def fetchLayers (st : ReaderState)
    (outcome : FetchOutcome (List LayerInfo)) : ReaderState × List Step :=
  let req : List Step := [.getLayersReq]
  match outcome with
  | .resolved _ (some layers) =>
      let base : List SelectOption :=
        [{ value := "", label := "-- Select Journal / Group --", isDisabled := true }]
      let base :=
        if layers.length = 0 then
          base ++ [{ value := "", label := "No journals yet", isDisabled := true }]
        else base
      let opts := base ++ layers.map (fun layer =>
        { value := jsNatToString layer.id
        , label := layer.name ++ " (by " ++ layer.creator_name ++ ")"
        , isDisabled := false })
      ({ st with layerSelectOptions := opts, layerSelectValue := "" }, req)
  | _ => (st, req)

/-- saveAnnotation (the save button handler): validate a non-empty trimmed
content and a truthy currentLayerId before any request; then POST the
payload built from the trimmed content, the current layer, the pending
quote and "Page N" from the live current page.  A non-ok status throws;
rejection or non-ok alerts and leaves the state alone.  On ok the list is
re-fetched through fetchAnnotations and then the textarea and the pending
quote are cleared. -/
def saveAnnotationHandler (userId : Nat) (st : ReaderState)
    (postOutcome : PostOutcome)
    (refetchOutcome : FetchOutcome (List AnnotationData)) : ReaderState × List Step :=
  let content := jsTrim st.annotationTextareaValue
  if content = "" then (st, [.alertStep "Please write a note."])
  else
    match st.currentLayerId with
    | none => (st, [.alertStep "Please select a journal layer."])
    | some lid =>
      if ¬ lid.truthy then (st, [.alertStep "Please select a journal layer."])
      else
        let highlightedText := st.currentHighlightedText
        let positionData := "Page " ++ jsNatToString st.currentPageNum
        let req := Step.createAnnotationReq content lid highlightedText positionData
        match postOutcome with
        | .rejected => (st, [req, .alertStep "Error saving note."])
        | .resolved false => (st, [req, .alertStep "Error saving note."])
        | .resolved true =>
            let p := fetchAnnotations userId st lid refetchOutcome
            ({ p.1 with annotationTextareaValue := "", currentHighlightedText := "" },
             req :: p.2)

/-- deleteAnnotation: ask for confirmation; when declined nothing further
happens.  When confirmed the POST is issued and then the first element
matching the selector ".annotation-card" with attribute data-id equal to
the annotation id is removed from the rendered list, if any matches. -/
def deleteAnnotationHandler (confirmed : Bool) (annotationId : Nat)
    (st : ReaderState) : ReaderState × List Step :=
  if ¬ confirmed then (st, [.confirmStep "Delete this note?"])
  else
    let st' :=
      match st.annotationListView with
      | .cards cs =>
          match cs.findIdx? (fun c =>
              c.className == "annotation-card" && c.dataId == some annotationId) with
          | some i => { st with annotationListView := .cards (cs.eraseIdx i) }
          | none => st
      | _ => st
    (st', [.confirmStep "Delete this note?", .deleteAnnotationReq annotationId])

/-! ### Layer creation dialog -/

/-- openCreateLayerModal: reset the name input, show the loading option in
the scope selector, open the modal, then GET the groups.  A non-ok status
throws, so rejection, non-ok and a parse failure all alert and close the
modal.  On success the selector is rebuilt with the sentinel option
(value "0") followed by one option per group valued by its id; rebuilding
selects the first option. -/
def openCreateLayerModal (st : ReaderState)
    (outcome : FetchOutcome (List StudyGroup)) : ReaderState × List Step :=
  let st0 := { st with newLayerNameValue := ""
                     , layerGroupOptions :=
                         [{ value := "", label := "Loading groups...", isDisabled := false }]
                     , layerGroupValue := ""
                     , createLayerModalDisplay := "flex" }
  match outcome with
  | .resolved true (some userGroups) =>
      let opts : List SelectOption :=
        { value := "0", label := "🔒 Private / Public (Everyone)", isDisabled := false } ::
          userGroups.map (fun group =>
            { value := jsNatToString group.id
            , label := "👥 Group: " ++ group.name
            , isDisabled := false })
      ({ st0 with layerGroupOptions := opts, layerGroupValue := "0" }, [.getGroupsReq])
  | _ =>
      ({ st0 with createLayerModalDisplay := "none" },
       [.getGroupsReq, .alertStep "Error loading groups."])

/-- The confirm button handler of the layer dialog: require a non-empty
trimmed name (alert and stop otherwise, before any request); map the
sentinel scope value "0" to a null study_group_id and any other selected
value through parseInt (NaN serializes to null in the JSON body, which the
Option models); POST the payload.  A non-ok status throws to the catch
block, which alerts without touching the modal.  On ok the modal is closed,
the layer list is re-fetched, the response body is parsed (a parse failure
at this point still alerts, with the modal already closed), the new layer
is selected when present among the rebuilt options, and its annotations are
fetched. -/
def confirmLayerBtnOnclick (ebookId userId : Nat) (st : ReaderState)
    (createOutcome : FetchOutcome LayerInfo)
    (layersOutcome : FetchOutcome (List LayerInfo))
    (annsOutcome : FetchOutcome (List AnnotationData)) : ReaderState × List Step :=
  let layerName := jsTrim st.newLayerNameValue
  let groupIdVal := st.layerGroupValue
  if layerName = "" then (st, [.alertStep "Please enter a name."])
  else
    let studyGroupId : Option Nat :=
      if groupIdVal = "0" then none else jsParseIntStr groupIdVal
    let req := Step.createLayerReq layerName ebookId studyGroupId
    match createOutcome with
    | .rejected => (st, [req, .alertStep "Error creating layer."])
    | .resolved false _ => (st, [req, .alertStep "Error creating layer."])
    | .resolved true none =>
        let st1 := { st with createLayerModalDisplay := "none" }
        let p := fetchLayers st1 layersOutcome
        (p.1, req :: p.2 ++ [.alertStep "Error creating layer."])
    | .resolved true (some newLayer) =>
        let st1 := { st with createLayerModalDisplay := "none" }
        let p := fetchLayers st1 layersOutcome
        let v := jsNatToString newLayer.id
        let st3 := { p.1 with layerSelectValue :=
          if p.1.layerSelectOptions.any (fun o => o.value == v) then v else "" }
        let q := fetchAnnotations userId st3 (.num newLayer.id) annsOutcome
        (q.1, req :: p.2 ++ q.2)

/-- The cancel button handler: close the modal, nothing else. -/
def cancelLayerBtnOnclick (st : ReaderState) : ReaderState :=
  { st with createLayerModalDisplay := "none" }

/-! ### AI assist trigger -/

/-- A parsed JSON value, as produced by response.json(). -/
inductive JsonValue where
  | null
  | bool (b : Bool)
  | num (n : Int)
  | str (s : String)
  | arr (elems : List JsonValue)
  | obj (fields : List (String × JsonValue))

/-- Whether a JSON value is the null value. -/
def JsonValue.isNull : JsonValue → Bool
  | .null => true
  | _ => false

/-- JavaScript string coercion of a (possibly negative) integer. -/
def jsIntToString (n : Int) : String :=
  if n < 0 then "-" ++ jsNatToString n.natAbs else jsNatToString n.toNat

/-- JavaScript string coercion of a JSON value, as a template literal
performs it: arrays join their elements with commas (a null element joins
as the empty string), objects print as "[object Object]". -/
def jsToStr (v : JsonValue) : String :=
  match v with
  | .null => "null"
  | .bool b => cond b "true" "false"
  | .num n => jsIntToString n
  | .str s => s
  | .obj _ => "[object Object]"
  | .arr xs =>
      String.intercalate "," (xs.attach.map (fun x =>
        if x.1.isNull then "" else jsToStr x.1))
decreasing_by
  have hmem := List.sizeOf_lt_of_mem x.2
  simp only [JsonValue.arr.sizeOf_spec]
  omega

/-- Property access data.explanation: on null it throws a TypeError
(outer none); on an object it yields the field when present, else
JavaScript undefined (inner none); on any other value it yields undefined. -/
def jsGetField (v : JsonValue) (key : String) : Option (Option JsonValue) :=
  match v with
  | .null => none
  | .obj fields => some (fields.lookup key)
  | _ => some none

/-- String interpolation of a possibly-undefined value, as in the template
literal that appends the AI answer. -/
def jsTemplateString : Option JsonValue → String
  | none => "undefined"
  | some v => jsToStr v

/-- Outcome of the POST to /api/ai/explain as the handler consumes it. -/
inductive AiOutcome where
  | rejected
  | parseFailed (ok : Bool)
  | parsed (ok : Bool) (body : JsonValue)

/-- askAiToExplain: require a non-empty trimmed draft (alert and stop
otherwise, before any request or button change).  Then capture the button
label (the source stores it in originalText but never reads it again), show
the busy label, disable the button and POST.  The response status is never
checked: the body is parsed and data.explanation interpolated into a block
appended to the draft (property access on a null body throws).  Any throw
(rejection, parse failure, null body) alerts.  The finally block then sets
the button label to the fixed idle label and re-enables the button on every
path that entered the try. -/
def askAiToExplain (ebookId : Nat) (st : ReaderState)
    (outcome : AiOutcome) : ReaderState × List Step :=
  let userThought := jsTrim st.annotationTextareaValue
  if userThought = "" then
    (st, [.alertStep "Please write a question or thought in the box first."])
  else
    let busy := { st with askAiBtnText := "Thinking...", askAiBtnDisabled := true }
    let tryResult : ReaderState × List Step :=
      match outcome with
      | .rejected => (busy, [.alertStep "AI could not respond."])
      | .parseFailed _ => (busy, [.alertStep "AI could not respond."])
      | .parsed _ body =>
          match jsGetField body "explanation" with
          | none => (busy, [.alertStep "AI could not respond."])
          | some fld =>
              ({ busy with annotationTextareaValue :=
                  busy.annotationTextareaValue ++ "\n\n[AI]: " ++ jsTemplateString fld ++ "\n" },
               [.scrollStep])
    (({ tryResult.1 with askAiBtnText := "✨ Ask AI", askAiBtnDisabled := false }),
     .aiExplainReq userThought ebookId :: tryResult.2)

/-! ### Failure shapes and concrete instances -/

/-- Whether an awaited fetch took the catch path of a handler that checks
the ok flag before parsing the body: rejection, a non-success status, or a
body that fails to parse. -/
def fetchFailed {a : Type} : FetchOutcome a → Bool
  | .rejected => true
  | .resolved false _ => true
  | .resolved true none => true
  | .resolved true (some _) => false

/-- Whether an awaited fetch failed at the request level: rejection or a
non-success status (the body, parsed or not, never gets that far). -/
def reqFailed {a : Type} : FetchOutcome a → Bool
  | .rejected => true
  | .resolved false _ => true
  | _ => false

/-- A concrete client state used to instantiate theorems on explicit
inputs; the closure variables hold their script-initial values. -/
def sampleState : ReaderState where
  currentPageNum := 1
  currentLayerId := none
  currentHighlightedText := ""
  pageNumDisplayText := "1"
  annotationTextareaValue := ""
  annotationListView := .message "Select a journal layer above."
  askAiBtnText := "✨ Ask AI"
  askAiBtnDisabled := false
  newLayerNameValue := ""
  layerGroupOptions := []
  layerGroupValue := "0"
  createLayerModalDisplay := "none"
  layerSelectOptions := []
  layerSelectValue := ""

/-- A concrete annotation: id 7, authored by user 1. -/
def sampleAnnotationEntry : AnnotationData where
  id := 7
  content := "my note"
  author_id := 1
  author_name := "Alice"
  highlighted_text := none
  position_data := none

/-- The state in which user 1 sees the rendered list holding exactly the
annotation above. -/
def deleteFailState : ReaderState :=
  { sampleState with annotationListView := renderAnnotations 1 [sampleAnnotationEntry] }

/-! ### Primitive lemmas -/

theorem digitChar_isDigit {d : Nat} (h : d < 10) : isDigitChar (digitChar d) = true := by
  interval_cases d <;> rfl

theorem charDigitVal_digitChar {d : Nat} (h : d < 10) : charDigitVal (digitChar d) = d := by
  interval_cases d <;> rfl

theorem digitChar_ne_dash {d : Nat} (h : d < 10) : digitChar d ≠ '-' := by
  interval_cases d <;> decide

theorem takeWhile_of_all {α} (p : α → Bool) :
    ∀ l : List α, (∀ a ∈ l, p a = true) → l.takeWhile p = l := by
  intro l
  induction l with
  | nil => intro _; rfl
  | cons a t ih =>
      intro h
      have ha : p a = true := h a (List.mem_cons_self a t)
      have ht := ih (fun x hx => h x (List.mem_cons_of_mem _ hx))
      simp [List.takeWhile, ha, ht]

theorem foldl_map_digitChar (l : List Nat) (h : ∀ d ∈ l, d < 10) (v : Nat) :
    List.foldl (fun a c => a * 10 + charDigitVal c) v (l.map digitChar)
      = List.foldl (fun a d => a * 10 + d) v l := by
  induction l generalizing v with
  | nil => rfl
  | cons d t ih =>
      have hd : d < 10 := h d (List.mem_cons_self d t)
      have ht : ∀ x ∈ t, x < 10 := fun x hx => h x (List.mem_cons_of_mem _ hx)
      simp only [List.map_cons, List.foldl_cons, charDigitVal_digitChar hd]
      exact ih ht _

theorem foldl_reverse_ofDigits (L : List Nat) (v : Nat) :
    List.foldl (fun a d => a * 10 + d) v L.reverse
      = v * 10 ^ L.length + Nat.ofDigits 10 L := by
  induction L generalizing v with
  | nil => simp
  | cons d t ih =>
      simp only [List.reverse_cons, List.foldl_append, List.foldl_cons, List.foldl_nil, ih,
        Nat.ofDigits_cons, List.length_cons, pow_succ]
      ring

/-- Digits of a natural number are below ten. -/
theorem digits_mem_lt {n d : Nat} (h : d ∈ Nat.digits 10 n) : d < 10 :=
  Nat.digits_lt_base (by norm_num) h

theorem decDigitsAux_eq : ∀ fuel n : Nat, n ≤ fuel →
    decDigitsAux fuel n = (Nat.digits 10 n).reverse := by
  intro fuel
  induction fuel with
  | zero =>
      intro n h
      interval_cases n
      simp [decDigitsAux]
  | succ fuel ih =>
      intro n h
      match n with
      | 0 => simp [decDigitsAux]
      | m + 1 =>
          have hdiv : (m + 1) / 10 ≤ fuel := by
            have hlt : (m + 1) / 10 < m + 1 := Nat.div_lt_self (Nat.succ_pos m) (by norm_num)
            omega
          rw [show decDigitsAux (fuel + 1) (m + 1)
                = decDigitsAux fuel ((m + 1) / 10) ++ [(m + 1) % 10] from rfl,
              ih _ hdiv,
              Nat.digits_def' (by norm_num : (1 : ℕ) < 10) (Nat.succ_pos m)]
          simp

theorem decDigits_eq (n : Nat) : decDigits n = (Nat.digits 10 n).reverse :=
  decDigitsAux_eq n n le_rfl

/-- Round trip: parseInt recovers a number from its JavaScript string form. -/
theorem jsParseInt_jsNatChars (n : Nat) : jsParseInt (jsNatChars n) = some n := by
  by_cases h : n = 0
  · subst h; rfl
  · have hall : ∀ c ∈ (Nat.digits 10 n).reverse.map digitChar, isDigitChar c = true := by
      intro c hc
      rcases List.mem_map.mp hc with ⟨d, hd, rfl⟩
      exact digitChar_isDigit (digits_mem_lt (List.mem_reverse.mp hd))
    have hlt : ∀ d ∈ (Nat.digits 10 n).reverse, d < 10 := by
      intro d hd
      exact digits_mem_lt (List.mem_reverse.mp hd)
    have hne : Nat.digits 10 n ≠ [] := Nat.digits_ne_nil_iff_ne_zero.mpr h
    unfold jsNatChars jsParseInt
    rw [if_neg h, decDigits_eq, takeWhile_of_all _ _ hall]
    have hempty : (((Nat.digits 10 n).reverse.map digitChar).isEmpty) = false := by
      simp [List.isEmpty_iff, hne]
    simp only [hempty, Bool.false_eq_true, if_false]
    rw [foldl_map_digitChar _ hlt, foldl_reverse_ofDigits]
    simp [Nat.ofDigits_digits]

theorem jsParseIntStr_jsNatToString (n : Nat) : jsParseIntStr (jsNatToString n) = some n :=
  jsParseInt_jsNatChars n

theorem jsNatChars_no_dash (n : Nat) : ∀ c ∈ jsNatChars n, c ≠ '-' := by
  intro c hc
  unfold jsNatChars at hc
  by_cases h : n = 0
  · rw [if_pos h] at hc
    simp at hc
    subst hc
    decide
  · rw [if_neg h, decDigits_eq] at hc
    rcases List.mem_map.mp hc with ⟨d, hd, rfl⟩
    exact digitChar_ne_dash (digits_mem_lt (List.mem_reverse.mp hd))

theorem splitDash_no_dash : ∀ l : List Char, (∀ c ∈ l, c ≠ '-') → splitDash l = [l] := by
  intro l
  induction l with
  | nil => intro _; rfl
  | cons c t ih =>
      intro h
      have hc : ¬(c = '-') := h c (List.mem_cons_self c t)
      have ht := ih (fun x hx => h x (List.mem_cons_of_mem _ hx))
      simp [splitDash, hc, ht]

theorem splitDash_page_wrapper (ds : List Char) (h : ∀ c ∈ ds, c ≠ '-') :
    splitDash ("page-wrapper-".data ++ ds) = ["page".data, "wrapper".data, ds] := by
  have ht := splitDash_no_dash ds h
  show splitDash ('p' :: 'a' :: 'g' :: 'e' :: '-' :: 'w' :: 'r' :: 'a' :: 'p' :: 'p' :: 'e' :: 'r' :: '-' :: ds) = _
  simp [splitDash, ht]

/-! ### Claim theorems -/

/-- Claim C1 (code bug, evaluated at the failing input): for annotation 7
owned by user 1 and rendered in the panel, a confirmed delete issues the
delete request but removes nothing from the rendered list — the cards
renderAnnotations builds carry no data-id attribute, so the selector
".annotation-card" with data-id 7 matches no card and the list comes back
unchanged, against the claim that exactly the matching card is removed. -/
theorem C1_delete_issues_request_but_removes_no_card :
    deleteAnnotationHandler true 7 deleteFailState
      = (deleteFailState,
         [Step.confirmStep "Delete this note?", Step.deleteAnnotationReq 7]) := by
  decide

/-- Claim C6: on a viewer pointer-release, a selection that is non-empty
after trimming overwrites the pending quote with the trimmed text, and a
selection that trims to empty leaves the whole state, in particular the
previously stored pending quote, unchanged. -/
theorem C6_selection_capture (st : ReaderState) (selectionText : String) :
    (jsTrim selectionText ≠ "" →
        (viewerMouseupHandler st selectionText).currentHighlightedText
          = jsTrim selectionText)
    ∧ (jsTrim selectionText = "" → viewerMouseupHandler st selectionText = st) := by
  unfold viewerMouseupHandler
  constructor
  · intro h
    have hlen : 0 < (jsTrim selectionText).length := by
      cases he : jsTrim selectionText with
      | mk data =>
          cases data with
          | nil => exact absurd he (by simpa using h)
          | cons c cs => simp [String.length, he]
    rw [if_pos hlen]
  · intro h
    rw [h]
    simp [String.length]

/-- Claim C6 witness. -/
theorem C6_selection_capture_witness :
    (viewerMouseupHandler sampleState " foo bar ").currentHighlightedText = "foo bar"
    ∧ viewerMouseupHandler deleteFailState "  " = deleteFailState := by
  refine ⟨?_, ?_⟩
  · have h := (C6_selection_capture sampleState " foo bar ").1 (by decide)
    rw [h]; decide
  · exact (C6_selection_capture deleteFailState "  ").2 (by decide)

/-- Claim C3: a save attempt whose trimmed content is empty, or whose
currentLayerId is falsy (never set, or not truthy), alerts a message,
issues no network request at all, and leaves the state unchanged. -/
theorem C3_validation_failure_no_network (userId : Nat) (st : ReaderState)
    (p : PostOutcome) (f : FetchOutcome (List AnnotationData))
    (h : jsTrim st.annotationTextareaValue = "" ∨ jsTruthyOpt st.currentLayerId = false) :
    (∃ msg, (saveAnnotationHandler userId st p f).2 = [Step.alertStep msg])
    ∧ (saveAnnotationHandler userId st p f).2.filter isNetworkReq = []
    ∧ (saveAnnotationHandler userId st p f).1 = st := by
  unfold saveAnnotationHandler
  by_cases hc : jsTrim st.annotationTextareaValue = ""
  · simp only [hc, if_pos rfl]
    exact ⟨⟨"Please write a note.", rfl⟩, rfl, rfl⟩
  · rcases h with h | h
    · exact absurd h hc
    · cases hl : st.currentLayerId with
      | none =>
          simp only [hc, if_neg hc, hl]
          exact ⟨⟨"Please select a journal layer.", rfl⟩, rfl, rfl⟩
      | some lid =>
          have hlt : lid.truthy = false := by
            rw [hl] at h
            exact h
          simp only [hc, if_neg hc, hl, hlt, Bool.not_false, if_pos]
          exact ⟨⟨"Please select a journal layer.", rfl⟩, rfl, rfl⟩

/-- Claim C3 witness. -/
theorem C3_validation_failure_no_network_witness :
    (∃ msg, (saveAnnotationHandler 1 sampleState .rejected .rejected).2 = [Step.alertStep msg])
    ∧ (saveAnnotationHandler 1 sampleState .rejected .rejected).2.filter isNetworkReq = []
    ∧ (saveAnnotationHandler 1 sampleState .rejected .rejected).1 = sampleState :=
  C3_validation_failure_no_network 1 sampleState .rejected .rejected (Or.inl (by decide))

/-- Claim C4: when the create request resolves ok (only then: a non-ok
status throws before the success path), the handler clears the textarea and
the pending quote, the trace shows the re-fetch request for the current
layer, and whenever that re-fetch yields a parsed body the final rendered
list is the rendering of the server-returned array — not a local append. -/
theorem C4_success_clears_and_refetches (userId : Nat) (st : ReaderState) (lid : JsVal)
    (f : FetchOutcome (List AnnotationData))
    (hc : jsTrim st.annotationTextareaValue ≠ "")
    (hl : st.currentLayerId = some lid) (ht : lid.truthy = true) :
    (saveAnnotationHandler userId st (.resolved true) f).1.annotationTextareaValue = ""
    ∧ (saveAnnotationHandler userId st (.resolved true) f).1.currentHighlightedText = ""
    ∧ Step.getAnnotationsReq lid ∈ (saveAnnotationHandler userId st (.resolved true) f).2
    ∧ ∀ ok anns, f = .resolved ok (some anns) →
        (saveAnnotationHandler userId st (.resolved true) f).1.annotationListView
          = renderAnnotations userId anns := by
  unfold saveAnnotationHandler fetchAnnotations
  simp only [if_neg hc, hl, ht, Bool.not_true, Bool.false_eq_true, if_false]
  cases f with
  | rejected =>
      refine ⟨rfl, rfl, ?_, ?_⟩
      · simp
      · intro ok anns hresolved
        cases hresolved
  | resolved ok body =>
      cases body with
      | none =>
          refine ⟨rfl, rfl, ?_, ?_⟩
          · simp
          · intro ok' anns hres
            cases hres
      | some anns =>
          refine ⟨rfl, rfl, ?_, ?_⟩
          · simp
          · intro ok' anns' hres
            cases hres
            rfl

/-- Claim C4 witness. -/
theorem C4_success_clears_and_refetches_witness :
    (saveAnnotationHandler 1
        { sampleState with annotationTextareaValue := " my note "
                         , currentHighlightedText := "foo bar"
                         , currentLayerId := some (.str "5") }
        (.resolved true) (.resolved true (some []))).1.annotationTextareaValue = ""
    ∧ (saveAnnotationHandler 1
        { sampleState with annotationTextareaValue := " my note "
                         , currentHighlightedText := "foo bar"
                         , currentLayerId := some (.str "5") }
        (.resolved true) (.resolved true (some []))).1.currentHighlightedText = ""
    ∧ Step.getAnnotationsReq (.str "5")
        ∈ (saveAnnotationHandler 1
            { sampleState with annotationTextareaValue := " my note "
                             , currentHighlightedText := "foo bar"
                             , currentLayerId := some (.str "5") }
            (.resolved true) (.resolved true (some []))).2
    ∧ ∀ ok anns, (FetchOutcome.resolved true (some ([] : List AnnotationData)))
          = .resolved ok (some anns) →
        (saveAnnotationHandler 1
            { sampleState with annotationTextareaValue := " my note "
                             , currentHighlightedText := "foo bar"
                             , currentLayerId := some (.str "5") }
            (.resolved true) (.resolved true (some []))).1.annotationListView
          = renderAnnotations 1 anns :=
  C4_success_clears_and_refetches 1
    { sampleState with annotationTextareaValue := " my note "
                     , currentHighlightedText := "foo bar"
                     , currentLayerId := some (.str "5") }
    (.str "5") (.resolved true (some [])) (by decide) rfl (by decide)

/-- Helper for claim C9: a save whose validations pass posts the payload
built from the current state, whatever the outcome of the POST itself. -/
theorem saveAnnotationHandler_posts (userId : Nat) (st : ReaderState) (lid : JsVal)
    (p : PostOutcome) (f : FetchOutcome (List AnnotationData))
    (hc : jsTrim st.annotationTextareaValue ≠ "")
    (hl : st.currentLayerId = some lid) (ht : lid.truthy = true) :
    Step.createAnnotationReq (jsTrim st.annotationTextareaValue) lid
        st.currentHighlightedText ("Page " ++ jsNatToString st.currentPageNum)
      ∈ (saveAnnotationHandler userId st p f).2 := by
  unfold saveAnnotationHandler
  simp only [if_neg hc, hl, ht, Bool.not_true, Bool.false_eq_true, if_false]
  cases p with
  | rejected => simp
  | resolved ok => cases ok <;> simp

/-- Claim C9: a call to fetchAnnotations with a truthy layer id records the
write to currentLayerId strictly before the GET in its trace, leaves
currentLayerId equal to that id whatever the outcome, and any subsequent
save whose content validation passes posts its payload to exactly that
layer. -/
theorem C9_fetch_sets_layer_before_request (userId : Nat) (st : ReaderState)
    (layerId : JsVal) (outcome : FetchOutcome (List AnnotationData))
    (ht : layerId.truthy = true) :
    (fetchAnnotations userId st layerId outcome).2
      = [Step.writeCurrentLayerId layerId, Step.getAnnotationsReq layerId]
    ∧ (fetchAnnotations userId st layerId outcome).1.currentLayerId = some layerId
    ∧ ∀ (p : PostOutcome) (f : FetchOutcome (List AnnotationData)),
        jsTrim (fetchAnnotations userId st layerId outcome).1.annotationTextareaValue ≠ "" →
        Step.createAnnotationReq
            (jsTrim (fetchAnnotations userId st layerId outcome).1.annotationTextareaValue)
            layerId
            ((fetchAnnotations userId st layerId outcome).1.currentHighlightedText)
            ("Page " ++ jsNatToString
                ((fetchAnnotations userId st layerId outcome).1.currentPageNum))
          ∈ (saveAnnotationHandler userId
              (fetchAnnotations userId st layerId outcome).1 p f).2 := by
  have hcl : (fetchAnnotations userId st layerId outcome).1.currentLayerId = some layerId := by
    unfold fetchAnnotations
    simp only [ht, Bool.not_true, Bool.false_eq_true, if_false]
    cases outcome with
    | rejected => rfl
    | resolved ok body => cases body <;> rfl
  refine ⟨?_, hcl, ?_⟩
  · unfold fetchAnnotations
    simp only [ht, Bool.not_true, Bool.false_eq_true, if_false]
    cases outcome with
    | rejected => rfl
    | resolved ok body => cases body <;> rfl
  · intro p f hc
    exact saveAnnotationHandler_posts userId _ layerId p f hc hcl ht

/-- Claim C9 witness. -/
theorem C9_fetch_sets_layer_before_request_witness :
    (fetchAnnotations 1 { sampleState with annotationTextareaValue := "hi" }
        (.str "5") .rejected).2
      = [Step.writeCurrentLayerId (.str "5"), Step.getAnnotationsReq (.str "5")]
    ∧ (fetchAnnotations 1 { sampleState with annotationTextareaValue := "hi" }
        (.str "5") .rejected).1.currentLayerId = some (.str "5")
    ∧ Step.createAnnotationReq
        (jsTrim (fetchAnnotations 1 { sampleState with annotationTextareaValue := "hi" }
            (.str "5") .rejected).1.annotationTextareaValue)
        (.str "5")
        ((fetchAnnotations 1 { sampleState with annotationTextareaValue := "hi" }
            (.str "5") .rejected).1.currentHighlightedText)
        ("Page " ++ jsNatToString
            ((fetchAnnotations 1 { sampleState with annotationTextareaValue := "hi" }
                (.str "5") .rejected).1.currentPageNum))
        ∈ (saveAnnotationHandler 1
            (fetchAnnotations 1 { sampleState with annotationTextareaValue := "hi" }
                (.str "5") .rejected).1 .rejected .rejected).2 := by
  have h := C9_fetch_sets_layer_before_request 1
    { sampleState with annotationTextareaValue := "hi" } (.str "5") .rejected (by decide)
  exact ⟨h.1, h.2.1, h.2.2 .rejected .rejected (by decide)⟩

/-- Claim C2 counterexample: with a valid name, when the layer-creation
request comes back with a non-success status, the handler alerts but the
dialog is not closed — its display stays "flex", refuting the claim that
every failure of the two network operations closes the dialog. -/
theorem C2_counterexample_create_failure_leaves_dialog_open :
    (confirmLayerBtnOnclick 1 1
        { sampleState with newLayerNameValue := "Math Notes"
                         , createLayerModalDisplay := "flex" }
        (.resolved false none) .rejected .rejected).1.createLayerModalDisplay = "flex"
    ∧ Step.alertStep "Error creating layer."
        ∈ (confirmLayerBtnOnclick 1 1
            { sampleState with newLayerNameValue := "Math Notes"
                             , createLayerModalDisplay := "flex" }
            (.resolved false none) .rejected .rejected).2 := by
  decide

/-- Claim C2 as amended: a failure of the groups fetch on open (rejection,
non-success status or unparseable body) shows the error and closes the
dialog, with exactly one request issued; a request-level failure of the
layer creation on confirm shows the error and issues exactly one request
but leaves the whole state — in particular the open dialog — unchanged. -/
theorem C2_amended_failure_handling :
    (∀ (st : ReaderState) (gout : FetchOutcome (List StudyGroup)),
        fetchFailed gout = true →
        (openCreateLayerModal st gout).1.createLayerModalDisplay = "none"
        ∧ Step.alertStep "Error loading groups." ∈ (openCreateLayerModal st gout).2
        ∧ (openCreateLayerModal st gout).2.filter isNetworkReq = [Step.getGroupsReq])
    ∧ ∀ (ebookId userId : Nat) (st : ReaderState)
        (co : FetchOutcome LayerInfo) (lo : FetchOutcome (List LayerInfo))
        (ao : FetchOutcome (List AnnotationData)),
        reqFailed co = true → jsTrim st.newLayerNameValue ≠ "" →
        (confirmLayerBtnOnclick ebookId userId st co lo ao).1 = st
        ∧ Step.alertStep "Error creating layer."
            ∈ (confirmLayerBtnOnclick ebookId userId st co lo ao).2
        ∧ (confirmLayerBtnOnclick ebookId userId st co lo ao).2.filter isNetworkReq
            = [Step.createLayerReq (jsTrim st.newLayerNameValue) ebookId
                (if st.layerGroupValue = "0" then none
                 else jsParseIntStr st.layerGroupValue)] := by
  constructor
  · intro st gout hg
    unfold openCreateLayerModal
    cases gout with
    | rejected => exact ⟨rfl, by simp, rfl⟩
    | resolved ok body =>
        cases ok with
        | false => exact ⟨rfl, by simp, rfl⟩
        | true =>
            cases body with
            | none => exact ⟨rfl, by simp, rfl⟩
            | some gs => simp [fetchFailed] at hg
  · intro ebookId userId st co lo ao hc hn
    unfold confirmLayerBtnOnclick
    simp only [if_neg hn]
    cases co with
    | rejected => exact ⟨rfl, by simp, by simp [isNetworkReq]⟩
    | resolved ok body =>
        cases ok with
        | false => exact ⟨rfl, by simp, by simp [isNetworkReq]⟩
        | true => simp [reqFailed] at hc

/-- Claim C2 amended witness. -/
theorem C2_amended_failure_handling_witness :
    ((openCreateLayerModal sampleState .rejected).1.createLayerModalDisplay = "none"
      ∧ Step.alertStep "Error loading groups." ∈ (openCreateLayerModal sampleState .rejected).2
      ∧ (openCreateLayerModal sampleState .rejected).2.filter isNetworkReq
          = [Step.getGroupsReq])
    ∧ ((confirmLayerBtnOnclick 1 1
          { sampleState with newLayerNameValue := "Math Notes"
                           , createLayerModalDisplay := "flex" }
          .rejected .rejected .rejected).1
        = { sampleState with newLayerNameValue := "Math Notes"
                           , createLayerModalDisplay := "flex" }
      ∧ Step.alertStep "Error creating layer."
          ∈ (confirmLayerBtnOnclick 1 1
              { sampleState with newLayerNameValue := "Math Notes"
                               , createLayerModalDisplay := "flex" }
              .rejected .rejected .rejected).2
      ∧ (confirmLayerBtnOnclick 1 1
            { sampleState with newLayerNameValue := "Math Notes"
                             , createLayerModalDisplay := "flex" }
            .rejected .rejected .rejected).2.filter isNetworkReq
          = [Step.createLayerReq
              (jsTrim ({ sampleState with newLayerNameValue := "Math Notes"
                                        , createLayerModalDisplay := "flex"
                         : ReaderState }).newLayerNameValue) 1
              (if ({ sampleState with newLayerNameValue := "Math Notes"
                                    , createLayerModalDisplay := "flex"
                     : ReaderState }).layerGroupValue = "0" then none
               else jsParseIntStr ({ sampleState with newLayerNameValue := "Math Notes"
                                                    , createLayerModalDisplay := "flex"
                                     : ReaderState }).layerGroupValue)]) :=
  ⟨C2_amended_failure_handling.1 sampleState .rejected (by decide),
   C2_amended_failure_handling.2 1 1
     { sampleState with newLayerNameValue := "Math Notes"
                      , createLayerModalDisplay := "flex" }
     .rejected .rejected .rejected (by decide) (by decide)⟩

/-- Claim C5: with a valid name, the first step of the confirm handler is
always the create-layer request, whose study_group_id is null for the
sentinel selected value "0" and the parseInt of any other selected value;
in particular an option built from a group with nonzero id n submits n. -/
theorem C5_study_group_id_mapping (ebookId userId : Nat) (st : ReaderState)
    (co : FetchOutcome LayerInfo) (lo : FetchOutcome (List LayerInfo))
    (ao : FetchOutcome (List AnnotationData))
    (hn : jsTrim st.newLayerNameValue ≠ "") :
    (st.layerGroupValue = "0" →
        (confirmLayerBtnOnclick ebookId userId st co lo ao).2.head?
          = some (Step.createLayerReq (jsTrim st.newLayerNameValue) ebookId none))
    ∧ (∀ v, st.layerGroupValue = v → v ≠ "0" →
        (confirmLayerBtnOnclick ebookId userId st co lo ao).2.head?
          = some (Step.createLayerReq (jsTrim st.newLayerNameValue) ebookId
              (jsParseIntStr v)))
    ∧ (∀ n : Nat, st.layerGroupValue = jsNatToString n → n ≠ 0 →
        (confirmLayerBtnOnclick ebookId userId st co lo ao).2.head?
          = some (Step.createLayerReq (jsTrim st.newLayerNameValue) ebookId (some n))) := by
  have hbase : (confirmLayerBtnOnclick ebookId userId st co lo ao).2.head?
      = some (Step.createLayerReq (jsTrim st.newLayerNameValue) ebookId
          (if st.layerGroupValue = "0" then none else jsParseIntStr st.layerGroupValue)) := by
    unfold confirmLayerBtnOnclick
    simp only [if_neg hn]
    cases co with
    | rejected => rfl
    | resolved ok body =>
        cases ok with
        | false => rfl
        | true =>
            cases body with
            | none => rfl
            | some nl => rfl
  refine ⟨?_, ?_, ?_⟩
  · intro h0
    rw [hbase, if_pos h0]
  · intro v hv hne
    rw [hbase, hv, if_neg hne]
  · intro n hv hnz
    have hzero : jsNatToString n ≠ "0" := by
      intro he
      apply hnz
      have hr := jsParseIntStr_jsNatToString n
      rw [he] at hr
      have h0 : jsParseIntStr "0" = some 0 := by decide
      rw [h0] at hr
      exact (Option.some_injective _ hr.symm)
    rw [hbase, hv, if_neg hzero, jsParseIntStr_jsNatToString]

/-- Claim C5 witness. -/
theorem C5_study_group_id_mapping_witness :
    (confirmLayerBtnOnclick 1 1
        { sampleState with newLayerNameValue := "Math Notes", layerGroupValue := "0" }
        .rejected .rejected .rejected).2.head?
      = some (Step.createLayerReq
          (jsTrim ({ sampleState with newLayerNameValue := "Math Notes"
                                    , layerGroupValue := "0" : ReaderState }).newLayerNameValue)
          1 none)
    ∧ (confirmLayerBtnOnclick 1 1
        { sampleState with newLayerNameValue := "Math Notes", layerGroupValue := "7" }
        .rejected .rejected .rejected).2.head?
      = some (Step.createLayerReq
          (jsTrim ({ sampleState with newLayerNameValue := "Math Notes"
                                    , layerGroupValue := "7" : ReaderState }).newLayerNameValue)
          1 (some 7)) :=
  ⟨(C5_study_group_id_mapping 1 1
      { sampleState with newLayerNameValue := "Math Notes", layerGroupValue := "0" }
      .rejected .rejected .rejected (by decide)).1 rfl,
   (C5_study_group_id_mapping 1 1
      { sampleState with newLayerNameValue := "Math Notes", layerGroupValue := "7" }
      .rejected .rejected .rejected (by decide)).2.2 7 (by decide) (by decide)⟩

/-- Claim C8 counterexample: the finally block writes the fixed idle label,
not the captured original (the source stores the original text in a
variable it never reads again), so a trigger whose label was "Ask AI" ends
re-enabled but with a different label than it started with. -/
theorem C8_counterexample_label_not_restored :
    (askAiToExplain 1
        { sampleState with annotationTextareaValue := "What is entropy?"
                         , askAiBtnText := "Ask AI" }
        (.parsed true (.obj [("explanation", .str "It measures disorder.")]))).1.askAiBtnText
      ≠ ({ sampleState with annotationTextareaValue := "What is entropy?"
                          , askAiBtnText := "Ask AI" : ReaderState }).askAiBtnText
    ∧ (askAiToExplain 1
        { sampleState with annotationTextareaValue := "What is entropy?"
                         , askAiBtnText := "Ask AI" }
        (.parsed true (.obj [("explanation", .str "It measures disorder.")]))).1.askAiBtnDisabled
      = false := by
  constructor
  · intro h
    simp only [askAiToExplain] at h
    rw [if_neg (by decide : ¬(jsTrim "What is entropy?" = ""))] at h
    exact absurd h (by decide)
  · simp only [askAiToExplain]
    rw [if_neg (by decide : ¬(jsTrim "What is entropy?" = ""))]

/-- Claim C8 as amended: on every invocation whose draft passes validation,
whatever the outcome of the request (success, rejection, parse failure,
even a null body), the finally step leaves the trigger re-enabled with the
fixed idle label "✨ Ask AI" — which coincides with the original label
exactly when the button started idle. -/
theorem C8_amended_busy_cleared (ebookId : Nat) (st : ReaderState) (outcome : AiOutcome)
    (h : jsTrim st.annotationTextareaValue ≠ "") :
    (askAiToExplain ebookId st outcome).1.askAiBtnDisabled = false
    ∧ (askAiToExplain ebookId st outcome).1.askAiBtnText = "✨ Ask AI" := by
  unfold askAiToExplain
  rw [if_neg h]
  exact ⟨rfl, rfl⟩

/-- Claim C8 amended witness. -/
theorem C8_amended_busy_cleared_witness :
    (askAiToExplain 1 { sampleState with annotationTextareaValue := "hi" }
        .rejected).1.askAiBtnDisabled = false
    ∧ (askAiToExplain 1 { sampleState with annotationTextareaValue := "hi" }
        .rejected).1.askAiBtnText = "✨ Ask AI" :=
  C8_amended_busy_cleared 1 { sampleState with annotationTextareaValue := "hi" }
    .rejected (by decide)

/-- Claim C10 counterexample: a response whose body parses as the JSON
value null takes the alert path, not the append path — the property access
data.explanation throws on null inside the try, so the claim that every
response with a JSON-parseable body appends the block (and that the alert
only follows a fetch rejection or a parse failure) fails at this input. -/
theorem C10_counterexample_null_body :
    Step.alertStep "AI could not respond."
        ∈ (askAiToExplain 1 { sampleState with annotationTextareaValue := "Why?" }
            (.parsed true JsonValue.null)).2
    ∧ (askAiToExplain 1 { sampleState with annotationTextareaValue := "Why?" }
        (.parsed true JsonValue.null)).1.annotationTextareaValue
      = ({ sampleState with annotationTextareaValue := "Why?" : ReaderState
           }).annotationTextareaValue := by
  decide

/-- Claim C10 as amended: the trigger never checks the response status —
the handler result does not depend on the ok flag at all; every response
whose body parses as a JSON value other than null appends the block to the
draft (interpolating undefined when the explanation field is missing) with
no alert; and the alert appears exactly when the fetch rejects, the body
fails to parse, or the body is JSON null. -/
theorem C10_amended_no_status_check (ebookId : Nat) (st : ReaderState)
    (h : jsTrim st.annotationTextareaValue ≠ "") :
    (∀ (ok : Bool) (body : JsonValue), body.isNull = false →
        (askAiToExplain ebookId st (.parsed ok body)).1.annotationTextareaValue
          = st.annotationTextareaValue ++ "\n\n[AI]: "
              ++ jsTemplateString ((jsGetField body "explanation").getD none) ++ "\n"
        ∧ Step.alertStep "AI could not respond."
            ∉ (askAiToExplain ebookId st (.parsed ok body)).2)
    ∧ (∀ (ok : Bool) (body : JsonValue),
        askAiToExplain ebookId st (.parsed ok body)
          = askAiToExplain ebookId st (.parsed true body))
    ∧ (∀ outcome : AiOutcome,
        Step.alertStep "AI could not respond." ∈ (askAiToExplain ebookId st outcome).2
          ↔ outcome = .rejected ∨ (∃ ok, outcome = .parseFailed ok)
            ∨ (∃ ok, outcome = .parsed ok JsonValue.null)) := by
  refine ⟨?_, ?_, ?_⟩
  · intro ok body hnn
    cases body with
    | null => simp [JsonValue.isNull] at hnn
    | bool b =>
        unfold askAiToExplain
        rw [if_neg h]
        exact ⟨rfl, by simp [jsGetField]⟩
    | num n =>
        unfold askAiToExplain
        rw [if_neg h]
        exact ⟨rfl, by simp [jsGetField]⟩
    | str s =>
        unfold askAiToExplain
        rw [if_neg h]
        exact ⟨rfl, by simp [jsGetField]⟩
    | arr xs =>
        unfold askAiToExplain
        rw [if_neg h]
        exact ⟨rfl, by simp [jsGetField]⟩
    | obj fields =>
        unfold askAiToExplain
        rw [if_neg h]
        exact ⟨rfl, by simp [jsGetField]⟩
  · intro ok body
    unfold askAiToExplain
    rw [if_neg h]
  · intro outcome
    cases outcome with
    | rejected =>
        unfold askAiToExplain
        rw [if_neg h]
        simp
    | parseFailed ok =>
        unfold askAiToExplain
        rw [if_neg h]
        simp
    | parsed ok body =>
        cases body with
        | null =>
            unfold askAiToExplain
            rw [if_neg h]
            simp [jsGetField]
        | bool b =>
            unfold askAiToExplain
            rw [if_neg h]
            simp [jsGetField]
        | num n =>
            unfold askAiToExplain
            rw [if_neg h]
            simp [jsGetField]
        | str s =>
            unfold askAiToExplain
            rw [if_neg h]
            simp [jsGetField]
        | arr xs =>
            unfold askAiToExplain
            rw [if_neg h]
            simp [jsGetField]
        | obj fields =>
            unfold askAiToExplain
            rw [if_neg h]
            simp [jsGetField]

/-- Claim C10 amended witness. -/
theorem C10_amended_no_status_check_witness :
    (askAiToExplain 1 { sampleState with annotationTextareaValue := "Why?" }
        (.parsed false (.obj [("explanation", .str "Because.")]))).1.annotationTextareaValue
      = ({ sampleState with annotationTextareaValue := "Why?" : ReaderState
           }).annotationTextareaValue ++ "\n\n[AI]: "
          ++ jsTemplateString
              ((jsGetField (.obj [("explanation", .str "Because.")]) "explanation").getD none)
          ++ "\n"
    ∧ Step.alertStep "AI could not respond."
        ∉ (askAiToExplain 1 { sampleState with annotationTextareaValue := "Why?" }
            (.parsed false (.obj [("explanation", .str "Because.")]))).2 :=
  (C10_amended_no_status_check 1 { sampleState with annotationTextareaValue := "Why?" }
      (by decide)).1 false (.obj [("explanation", .str "Because.")]) (by decide)

/-- Parsing the wrapper id of page k recovers k: split on dashes yields
["page", "wrapper", digits of k] and parseInt reads the digits back. -/
theorem pageIdToNum_pageWrapperId (k : Nat) : pageIdToNum (pageWrapperId k) = some k := by
  unfold pageIdToNum pageWrapperId jsNatToString
  rw [String.data_append]
  rw [show (String.mk (jsNatChars k)).data = jsNatChars k from rfl]
  rw [splitDash_page_wrapper (jsNatChars k) (jsNatChars_no_dash k)]
  rw [show (["page".data, "wrapper".data, jsNatChars k].get? 2) = some (jsNatChars k) from rfl]
  exact jsParseInt_jsNatChars k

/-- One observer step keeps the current page within bounds when the entry
comes from an observed wrapper. -/
theorem pageObserverCallbackStep_bound (totalPages : Nat) (st : ReaderState) (e : ObsEntry)
    (hlo : 1 ≤ st.currentPageNum) (hhi : st.currentPageNum ≤ totalPages)
    (he : e.targetId ∈ observedPageIds totalPages) :
    1 ≤ (pageObserverCallbackStep st e).currentPageNum
    ∧ (pageObserverCallbackStep st e).currentPageNum ≤ totalPages := by
  rcases List.mem_map.mp he with ⟨i, hi, hid⟩
  have hir : i < totalPages := List.mem_range.mp hi
  unfold pageObserverCallbackStep
  by_cases hint : e.isIntersecting
  · rw [if_pos hint, ← hid, pageIdToNum_pageWrapperId]
    exact ⟨Nat.succ_le_succ (Nat.zero_le i), hir⟩
  · rw [if_neg hint]
    exact ⟨hlo, hhi⟩

/-- Claim C7: starting from a current page within bounds (the script
initialises it to 1, in bounds once a document with at least one page is
loaded), folding the observer callback over any batch of entries whose
targets are observed page wrappers keeps currentPageNum within one and
totalPages; and a non-intersecting entry — scrolling a page away — never
changes the state at all, so the last-set value survives. -/
theorem C7_current_page_invariant (totalPages : Nat) (st : ReaderState)
    (entries : List ObsEntry)
    (hlo : 1 ≤ st.currentPageNum) (hhi : st.currentPageNum ≤ totalPages)
    (hmem : ∀ e ∈ entries, e.targetId ∈ observedPageIds totalPages) :
    (1 ≤ (pageObserverCallback st entries).currentPageNum
      ∧ (pageObserverCallback st entries).currentPageNum ≤ totalPages)
    ∧ ∀ (st' : ReaderState) (e : ObsEntry), e.isIntersecting = false →
        pageObserverCallbackStep st' e = st' := by
  constructor
  · induction entries generalizing st with
    | nil => exact ⟨hlo, hhi⟩
    | cons e t ih =>
        have hstep := pageObserverCallbackStep_bound totalPages st e hlo hhi
          (hmem e (List.mem_cons_self e t))
        exact ih _ hstep.1 hstep.2 (fun x hx => hmem x (List.mem_cons_of_mem _ hx))
  · intro st' e hni
    unfold pageObserverCallbackStep
    rw [if_neg (by simp [hni])]

/-- Claim C7 witness. -/
theorem C7_current_page_invariant_witness :
    (1 ≤ (pageObserverCallback sampleState
            [{ targetId := pageWrapperId 2, isIntersecting := true }]).currentPageNum
      ∧ (pageObserverCallback sampleState
            [{ targetId := pageWrapperId 2, isIntersecting := true }]).currentPageNum ≤ 3)
    ∧ ∀ (st' : ReaderState) (e : ObsEntry), e.isIntersecting = false →
        pageObserverCallbackStep st' e = st' :=
  C7_current_page_invariant 3 sampleState
    [{ targetId := pageWrapperId 2, isIntersecting := true }]
    (by decide) (by decide) (by decide)
